import Mathlib

/-!
# Shallow embedding of the pinax-stripe webhook pipeline

This development embeds the webhook registry, the webhook handler life
cycle (`validate` / `process` / `process_webhook` / `send_signal`), the
HTTP webhook receiver, and the transfer/customer sync functions of the
`django-stripe-payments` repository, together with the database rows the
tests observe (`Event`, `EventProcessingException`, `Transfer`).

The repository snapshot ships only the test suite
(`pinax/stripe/tests/test_webhooks.py`) and a migration; the module
under test (`pinax/stripe/webhooks.py`, the receiver view and the
`actions` sync functions) is absent.  Every operational definition below
is therefore modelled from the specification's description of those
modules, constrained by the behaviour the shipped tests exercise.
-/

namespace PinaxStripe

/-- Modelled from the spec: the `data.object` carried inside a vendor
event envelope, restricted to the fields the transfer sync functions
read (`id`, `amount` in minor units, `currency`, `status`, `date`,
`description`). -/
structure SObject where
  id : String
  amount : Int
  currency : String
  status : String
  date : Int
  description : Option String
deriving Repr, DecidableEq

/-- Modelled from the spec: the vendor event envelope posted to the
webhook endpoint — `id`, `type` (here `kind`), `livemode`,
`data.object` (here `obj`) and the optional connected-account
`user_id`. -/
structure Envelope where
  id : String
  kind : String
  livemode : Bool
  obj : SObject
  user_id : Option String
deriving Repr, DecidableEq

/-- The `Event` model row: vendor event id, kind, raw payload,
validated payload, validity flag, processed flag, optional connected
account and optional link to a local customer (per spec section 3 and
the fields the tests read). -/
structure Event where
  stripe_id : String
  kind : String
  livemode : Bool
  webhook_message : Envelope
  validated_message : Option Envelope
  valid : Bool
  processed : Bool
  stripe_account : Option String
  customer : Option String
deriving Repr, DecidableEq

/-- The `EventProcessingException` row: message and optional link to
the triggering event (append-only failure log, spec section 3). -/
structure EventProcessingException where
  message : String
  event_id : Option String
deriving Repr, DecidableEq

/-- The `Transfer` model row: vendor transfer id, decimal amount,
currency and status, as the transfer tests observe it. -/
structure Transfer where
  stripe_id : String
  amount : ℚ
  currency : String
  status : String
deriving Repr, DecidableEq

/-- The database state the webhook pipeline reads and writes: `Event`
rows, the exception log, `Transfer` rows, existing local customer ids,
and the log of `sync_customer` invocations (observable effect of the
customer sync function). -/
structure DB where
  events : List Event
  exceptions : List EventProcessingException
  transfers : List Transfer
  synced_customers : List String
deriving Repr, DecidableEq

/-- The empty database. -/
def DB.empty : DB := ⟨[], [], [], []⟩

/-- Modelled from the spec: the error kinds the pipeline raises —
validation mismatch (event kind does not match the handler) and
processing exceptions (vendor API error or data error). -/
inductive Err where
  | validationMismatch (handlerName eventKind : String)
  | stripeError (msg : String)
deriving Repr, DecidableEq

/-- The message recorded in the exception log for an error. -/
def Err.message : Err → String
  | .validationMismatch n k =>
      "Webhook event mismatch: handler " ++ n ++ " received " ++ k
  | .stripeError m => m

/-- Modelled from the spec: the process-wide registry's set of
registered event kinds; registration associates each kind with a
handler class and creates a dispatch signal for it.  The kinds listed
are those the shipped tests import handlers for or dispatch on. -/
def registeredKinds : List String :=
  ["account.updated",
   "account.application.deauthorized",
   "charge.captured",
   "customer.updated",
   "customer.source.created",
   "customer.source.deleted",
   "customer.subscription.created",
   "invoice.created",
   "transfer.created",
   "transfer.paid"]

/-- A dispatch signal, identified by the event kind it was created
for. -/
structure Signal where
  kind : String
deriving Repr, DecidableEq

/-- Modelled from the spec: `registry.get_signal(kind)` returns the
dispatch signal for a registered kind and `none` (no exception) for an
unknown kind. -/
def get_signal (kind : String) : Option Signal :=
  if kind ∈ registeredKinds then some ⟨kind⟩ else none

/-- Modelled from the spec: `registry.get(kind)` returns the handler
class registered for `kind`, here represented by the kind string
itself (the handler's declared `name`), or `none` for unknown kinds. -/
def registry_get (kind : String) : Option String :=
  if kind ∈ registeredKinds then some kind else none

/-- A webhook handler instance: its declared `name` (the kind it was
registered for) and the event it was constructed with. -/
structure Webhook where
  name : String
  event : Event
deriving Repr, DecidableEq

/-- Modelled from the spec: constructing a handler with an event whose
kind differs from the handler's declared name raises the
validation-mismatch error. -/
def mkWebhook (name : String) (ev : Event) : Except Err Webhook :=
  if ev.kind = name then .ok ⟨name, ev⟩
  else .error (.validationMismatch name ev.kind)

/-- A delivered signal: the signal's kind and the validated payload
handed to listeners. -/
structure Delivery where
  signal_kind : String
  payload : Option Envelope
deriving Repr, DecidableEq

/-- Modelled from the spec: `send_signal()` fires only if the
handler's own declared name matches the event kind (defensive
self-check), delivering the validated payload to any registered
listener; otherwise nothing is delivered and no exception is
raised. -/
def send_signal (w : Webhook) : Option Delivery :=
  if w.name = w.event.kind then
    some ⟨w.name, w.event.validated_message⟩
  else none

/-- Modelled from the spec: `convert_amount_for_db` converts a vendor
amount in minor units of the currency into the stored decimal amount
(455 minor units of usd become 4.55). -/
def convert_amount_for_db (amount : Int) (currency : String) : ℚ :=
  let _ := currency
  (amount : ℚ) / 100

/-- The `Transfer` row a transfer object is stored as on first sync. -/
def transferRowOf (obj : SObject) : Transfer :=
  ⟨obj.id, convert_amount_for_db obj.amount obj.currency,
   obj.currency, obj.status⟩

/-- The upsert on the transfer table: update the status of the rows
keyed by the object's vendor id when one exists, insert the converted
row otherwise. -/
def syncTransferList (obj : SObject) (ts : List Transfer) : List Transfer :=
  if ts.any (fun t => t.stripe_id = obj.id) then
    ts.map (fun t =>
      if t.stripe_id = obj.id then { t with status := obj.status } else t)
  else
    ts ++ [transferRowOf obj]

/-- Modelled from the spec: the transfer sync function, an idempotent
upsert keyed by the vendor transfer id — it creates the row with the
converted amount, currency and status when absent, and updates the
existing row's status when present. -/
def sync_transfer (obj : SObject) (db : DB) : DB :=
  { db with transfers := syncTransferList obj db.transfers }

/-- Modelled from the spec: the customer sync function; its invocation
for a customer is recorded in the database state. -/
def sync_customer (c : String) (db : DB) : DB :=
  { db with synced_customers := db.synced_customers ++ [c] }

/-- Modelled from the spec: `process_webhook()` is the per-kind
override point invoking the relevant domain sync — the transfer kinds
sync the validated payload's transfer object, and
`customer.subscription.created` syncs the linked local customer only when
the event has one.  Vendor-API failures inside a per-kind body are
modelled by the parameterised body of `processWith` below. -/
def process_webhook (ev : Event) (db : DB) : DB :=
  if ev.kind = "transfer.created" ∨ ev.kind = "transfer.paid" then
    match ev.validated_message with
    | some msg => sync_transfer msg.obj db
    | none => db
  else if ev.kind = "customer.subscription.created" then
    match ev.customer with
    | some c => sync_customer c db
    | none => db
  else db

/-- Modelled from the spec: `validate()` re-fetches the event from the
vendor API as the source of truth, stores the authoritative copy as
the validated payload and sets the validity flag by comparing the
posted payload's data with the re-fetched data. -/
def validate (vendor : Envelope) (ev : Event) : Event :=
  { ev with validated_message := some vendor,
            valid := decide (ev.webhook_message.obj = vendor.obj) }

/-- Apply `f` to the event rows with vendor id `eid`. -/
def updateRows (eid : String) (f : Event → Event) (es : List Event) :
    List Event :=
  es.map (fun e => if e.stripe_id = eid then f e else e)

/-- Replace the event row with vendor id `eid` by `f` applied to it. -/
def update_event (db : DB) (eid : String) (f : Event → Event) : DB :=
  { db with events := updateRows eid f db.events }

/-- Append an exception-log row tied to the given event. -/
def log_exception (db : DB) (eid : String) (e : Err) : DB :=
  { db with exceptions := db.exceptions ++ [⟨e.message, some eid⟩] }

/-- Modelled from the spec: the handler's `process()` skeleton,
parameterised by the per-kind `process_webhook` body `pw`.  An already
processed event is a no-op.  Otherwise the event is validated against
the vendor's authoritative copy; an invalid event is left alone; a
valid event runs `pw`, delivers the handler's signal, and is marked
processed.  Any exception raised by `pw` is caught, written to the
exception log tied to the event, then re-raised (returned as the
second component). -/
def processWith (pw : Event → DB → Except Err DB) (vendor : Envelope)
    (ev : Event) (db : DB) : DB × Option Err :=
  if ev.processed then (db, none)
  else
    let ev1 := validate vendor ev
    let db1 := update_event db ev.stripe_id (fun _ => ev1)
    if ev1.valid then
      match pw ev1 db1 with
      | .error e => (log_exception db1 ev.stripe_id e, some e)
      | .ok db2 =>
          let db3 := update_event db2 ev.stripe_id
            (fun e => { e with processed := true })
          (db3, none)
    else (db1, none)

/-- `process()` with the real per-kind `process_webhook` dispatch (which
never raises in this model — exceptions originate in vendor-API calls,
covered by the parameterised `processWith`). -/
def process (vendor : Envelope) (ev : Event) (db : DB) : DB × Option Err :=
  processWith (fun e d => .ok (process_webhook e d)) vendor ev db

/-- Build the `Event` row the webhook receiver creates from a posted
envelope: the connected-account field is taken from the envelope's
`user_id` when present. -/
def mkEventRow (data : Envelope) : Event :=
  { stripe_id := data.id, kind := data.kind, livemode := data.livemode,
    webhook_message := data, validated_message := none, valid := false,
    processed := false, stripe_account := data.user_id, customer := none }

/-- Modelled from the spec: the webhook receiver view.  A posted event
whose vendor id already exists as an `Event` row is rejected by
recording an `EventProcessingException` with message
"Duplicate event record" and returning success (200) without
reprocessing.  Otherwise an `Event` row is created, the registry is
consulted for a handler of the event's kind, and when one exists the
event is processed; the response is 200, with any re-raised processing
exception returned alongside. -/
def webhook_view (vendor : Envelope) (data : Envelope) (db : DB) :
    DB × Option Err × Nat :=
  if db.events.any (fun e => e.stripe_id = data.id) then
    ({ db with exceptions :=
         db.exceptions ++ [⟨"Duplicate event record", none⟩] }, none, 200)
  else
    let ev := mkEventRow data
    let db1 := { db with events := db.events ++ [ev] }
    match registry_get ev.kind with
    | some _ =>
        let r := process vendor ev db1
        (r.1, r.2, 200)
    | none => (db1, none, 200)

/-! ## Concrete fixtures mirroring the shipped tests -/

/-- A minimal transfer object, for events whose payload is irrelevant. -/
def emptyObj : SObject := ⟨"", 0, "", "", 0, none⟩

/-- The posted body of the duplicate-event test (vendor id `123`). -/
def dupEnvelope : Envelope := ⟨"123", "", true, emptyObj, none⟩

/-- The pre-existing `Event` row of the duplicate-event test. -/
def dupEvent : Event := mkEventRow dupEnvelope

/-- A database already holding the event with vendor id `123`. -/
def dupDB : DB := ⟨[dupEvent], [], [], []⟩

/-- The transfer object of the transfer-created test data: amount 455
minor units of usd, status pending. -/
def transferObj : SObject :=
  ⟨"tr_XXXXXXXXXXXX", 455, "usd", "pending", 1348876800, none⟩

/-- The transfer-created event envelope of the test data. -/
def transferCreatedEnv : Envelope :=
  ⟨"evt_XXXXXXXXXXXXx", "transfer.created", true, transferObj, none⟩

/-- The `Event` row receiving the transfer-created envelope. -/
def transferCreatedEvent : Event := mkEventRow transferCreatedEnv

/-- The transfer object of the later transfer-paid event: same vendor
transfer id, status paid. -/
def transferPaidObj : SObject :=
  ⟨"tr_XXXXXXXXXXXX", 455, "usd", "paid", 1364601600,
   some "STRIPE TRANSFER"⟩

/-- The transfer-paid event envelope for the same transfer id. -/
def transferPaidEnv : Envelope :=
  ⟨"evt_YYYYYYYYYYYY", "transfer.paid", true, transferPaidObj, none⟩

/-- The `Event` row receiving the transfer-paid envelope. -/
def transferPaidEvent : Event := mkEventRow transferPaidEnv

/-- An account.application.deauthorized envelope, as in the
exception-logging test. -/
def deauthEnv : Envelope :=
  ⟨"evt_001", "account.application.deauthorized", true, emptyObj, none⟩

/-- The unprocessed event of the exception-logging test. -/
def deauthEvent : Event := mkEventRow deauthEnv

/-- The same event already marked processed. -/
def processedEvent : Event := { deauthEvent with processed := true }

/-- A `process_webhook` body that raises a vendor API error, as the
mocked body of the exception-logging test does. -/
def failingPW : Event → DB → Except Err DB :=
  fun _ _ => .error (.stripeError "Message")

/-- A customer.subscription.created envelope. -/
def subEnv : Envelope :=
  ⟨"evt_sub", "customer.subscription.created", true, emptyObj, none⟩

/-- A subscription-created event with no linked local customer. -/
def subEventNoCustomer : Event := mkEventRow subEnv

/-- A subscription-created event linked to a local customer. -/
def subEventWithCustomer : Event :=
  { mkEventRow subEnv with customer := some "cus_1" }

/-- An account.updated event, used against the wrong handler in the
mismatch test. -/
def accountUpdatedEvent : Event :=
  mkEventRow ⟨"evt_au", "account.updated", true, emptyObj, none⟩

/-- A transfer-created envelope carrying a connected account
`user_id`, as in the connected-account test. -/
def connectEnv : Envelope :=
  ⟨"evt_conn", "transfer.created", true, transferObj,
   some "acct_123123123"⟩

/-! ## Helper lemmas -/

theorem updateRows_append (eid : String) (f : Event → Event)
    (es1 es2 : List Event) :
    updateRows eid f (es1 ++ es2) =
      updateRows eid f es1 ++ updateRows eid f es2 := by
  simp [updateRows]

theorem updateRows_fresh (eid : String) (f : Event → Event)
    (es : List Event) (h : ∀ e ∈ es, e.stripe_id ≠ eid) :
    updateRows eid f es = es := by
  unfold updateRows
  induction es with
  | nil => rfl
  | cons a t ih =>
      simp only [List.map_cons]
      rw [if_neg (h a (by simp)), ih (fun e he => h e (by simp [he]))]

theorem updateRows_singleton_hit (eid : String) (f : Event → Event)
    (ev : Event) (h : ev.stripe_id = eid) :
    updateRows eid f [ev] = [f ev] := by
  simp [updateRows, h]

theorem process_webhook_events (ev : Event) (db : DB) :
    (process_webhook ev db).events = db.events := by
  unfold process_webhook
  split
  · split <;> simp [sync_transfer]
  · split
    · split <;> simp [sync_customer]
    · rfl

theorem process_webhook_transfers_of_transfer_kind (ev : Event)
    (db : DB) (vendor : Envelope)
    (hk : ev.kind = "transfer.created" ∨ ev.kind = "transfer.paid")
    (hv : ev.validated_message = some vendor) :
    (process_webhook ev db).transfers =
      syncTransferList vendor.obj db.transfers := by
  unfold process_webhook
  rw [if_pos hk, hv]
  simp [sync_transfer]

theorem syncTransferList_insert (obj : SObject) (ts : List Transfer)
    (h : ∀ t ∈ ts, t.stripe_id ≠ obj.id) :
    syncTransferList obj ts = ts ++ [transferRowOf obj] := by
  have hany : ts.any (fun t => t.stripe_id = obj.id) = false := by
    simp only [List.any_eq_false, decide_eq_true_eq]
    exact h
  unfold syncTransferList
  rw [hany]
  simp

theorem map_status_fresh (obj : SObject) (ts : List Transfer)
    (h : ∀ t ∈ ts, t.stripe_id ≠ obj.id) :
    ts.map (fun t =>
      if t.stripe_id = obj.id then { t with status := obj.status } else t)
      = ts := by
  induction ts with
  | nil => rfl
  | cons a t ih =>
      simp only [List.map_cons]
      rw [if_neg (h a (by simp)), ih (fun e he => h e (by simp [he]))]

theorem syncTransferList_update (obj : SObject) (ts : List Transfer)
    (row : Transfer) (h : ∀ t ∈ ts, t.stripe_id ≠ obj.id)
    (hrow : row.stripe_id = obj.id) :
    syncTransferList obj (ts ++ [row]) =
      ts ++ [{ row with status := obj.status }] := by
  have hany : (ts ++ [row]).any (fun t => t.stripe_id = obj.id) = true := by
    simp only [List.any_eq_true, decide_eq_true_eq]
    exact ⟨row, by simp, hrow⟩
  unfold syncTransferList
  rw [hany]
  simp only [if_true, List.map_append, List.map_cons, List.map_nil]
  rw [if_pos hrow, map_status_fresh obj ts h]

theorem process_transfer_sync (vendor : Envelope) (ev : Event) (db : DB)
    (hk : ev.kind = "transfer.created" ∨ ev.kind = "transfer.paid")
    (hp : ev.processed = false)
    (hm : ev.webhook_message.obj = vendor.obj) :
    (process vendor ev db).1.transfers =
      syncTransferList vendor.obj db.transfers ∧
    (process vendor ev db).2 = none := by
  unfold process processWith
  rw [if_neg (by simp [hp])]
  have hval : (validate vendor ev).valid = true := by
    simp [validate, hm]
  rw [if_pos hval]
  simp only [update_event, log_exception]
  constructor
  · rw [process_webhook_transfers_of_transfer_kind _ _ vendor
        (by simpa [validate] using hk) (by simp [validate])]
  · trivial

theorem process_events_fresh (vendor : Envelope) (ev : Event) (db : DB)
    (hp : ev.processed = false)
    (h : ∀ e ∈ db.events, e.stripe_id ≠ ev.stripe_id) :
    ∃ ev2, (process vendor ev
        { db with events := db.events ++ [ev] }).1.events
        = db.events ++ [ev2] ∧ ev2.stripe_id = ev.stripe_id ∧
      ev2.stripe_account = ev.stripe_account := by
  have hdb1 : updateRows ev.stripe_id (fun _ => validate vendor ev)
      (db.events ++ [ev]) = db.events ++ [validate vendor ev] := by
    rw [updateRows_append, updateRows_fresh _ _ _ h,
      updateRows_singleton_hit _ _ _ rfl]
  by_cases hval : (validate vendor ev).valid = true
  · refine ⟨{ validate vendor ev with processed := true }, ?_,
      by simp [validate], by simp [validate]⟩
    have hdb2 : updateRows ev.stripe_id (fun e => { e with processed := true })
        (db.events ++ [validate vendor ev]) =
        db.events ++ [{ validate vendor ev with processed := true }] := by
      rw [updateRows_append, updateRows_fresh _ _ _ h,
        updateRows_singleton_hit _ _ _ (by simp [validate])]
    simp only [process, processWith, hp, Bool.false_eq_true, if_false,
      hval, if_true, update_event]
    rw [process_webhook_events, hdb1, hdb2]
    simp [hval]
  · have hval2 : (validate vendor ev).valid = false :=
      Bool.not_eq_true _ ▸ Bool.of_not_eq_true hval
    refine ⟨validate vendor ev, ?_, by simp [validate], by simp [validate]⟩
    simp only [process, processWith, hp, Bool.false_eq_true, if_false,
      hval2, update_event]
    rw [hdb1]

/-! ## Claim theorems -/

/-- C1: a POST to the webhook endpoint whose envelope carries a vendor
event id that already exists as an `Event` row creates no second
`Event` row, records an `EventProcessingException` with message
"Duplicate event record", and returns HTTP 200 without reprocessing
the event. -/
theorem c1_webhook_duplicate (vendor data : Envelope) (db : DB)
    (h : db.events.any (fun e => e.stripe_id = data.id) = true) :
    webhook_view vendor data db =
      ({ db with exceptions :=
          db.exceptions ++ [⟨"Duplicate event record", none⟩] },
       none, 200) := by
  simp [webhook_view, h]

theorem c1_witness :
    (dupDB.events.any (fun e => e.stripe_id = dupEnvelope.id) = true) ∧
    webhook_view dupEnvelope dupEnvelope dupDB =
      ({ dupDB with exceptions :=
          dupDB.exceptions ++ [⟨"Duplicate event record", none⟩] },
       none, 200) :=
  ⟨by decide, c1_webhook_duplicate dupEnvelope dupEnvelope dupDB (by decide)⟩

/-- C2: any exception raised by the `process_webhook` body during
`process()` is written to the exception log tied to the triggering
event and then re-raised to the caller. -/
theorem c2_process_exception_logged (pw : Event → DB → Except Err DB)
    (vendor : Envelope) (ev : Event) (db : DB) (e : Err)
    (hp : ev.processed = false)
    (hv : (validate vendor ev).valid = true)
    (he : pw (validate vendor ev)
        (update_event db ev.stripe_id (fun _ => validate vendor ev)) =
        .error e) :
    processWith pw vendor ev db =
      (log_exception
        (update_event db ev.stripe_id (fun _ => validate vendor ev))
        ev.stripe_id e, some e) ∧
    (processWith pw vendor ev db).1.exceptions =
      db.exceptions ++ [⟨e.message, some ev.stripe_id⟩] := by
  have h1 : processWith pw vendor ev db =
      (log_exception
        (update_event db ev.stripe_id (fun _ => validate vendor ev))
        ev.stripe_id e, some e) := by
    simp [processWith, hp, hv, he]
  exact ⟨h1, by rw [h1]; simp [log_exception, update_event]⟩

theorem c2_witness :
    deauthEvent.processed = false ∧
    (validate deauthEnv deauthEvent).valid = true ∧
    failingPW (validate deauthEnv deauthEvent)
      (update_event DB.empty deauthEvent.stripe_id
        (fun _ => validate deauthEnv deauthEvent)) =
      .error (.stripeError "Message") ∧
    (processWith failingPW deauthEnv deauthEvent DB.empty).1.exceptions =
      DB.empty.exceptions ++
        [⟨(Err.stripeError "Message").message, some deauthEvent.stripe_id⟩] :=
  ⟨rfl, by decide, rfl,
    (c2_process_exception_logged failingPW deauthEnv deauthEvent DB.empty
      (.stripeError "Message") rfl (by decide) rfl).2⟩

/-- C3: `send_signal()` delivers the handler's signal with the
validated payload exactly when the handler's declared name equals the
event's kind, and delivers nothing when they differ; being a total
function it raises no exception in either case. -/
theorem c3_send_signal_iff (w : Webhook) :
    (send_signal w = some ⟨w.name, w.event.validated_message⟩ ↔
      w.name = w.event.kind) ∧
    (send_signal w = none ↔ w.name ≠ w.event.kind) := by
  unfold send_signal
  by_cases h : w.name = w.event.kind <;> simp [h]

/-- C4: `registry.get_signal` returns `none`, raising no exception,
for every unregistered kind, and returns the kind's dispatch signal
for every registered kind. -/
theorem c4_get_signal_total (kind : String) :
    (kind ∉ registeredKinds → get_signal kind = none) ∧
    (kind ∈ registeredKinds → get_signal kind = some ⟨kind⟩) := by
  constructor <;> intro h <;> simp [get_signal, h]

theorem c4_witness :
    (("not a webhook" ∉ registeredKinds) ∧
      get_signal "not a webhook" = none) ∧
    (("account.updated" ∈ registeredKinds) ∧
      get_signal "account.updated" = some ⟨"account.updated"⟩) :=
  ⟨⟨by decide, (c4_get_signal_total "not a webhook").1 (by decide)⟩,
   ⟨by decide, (c4_get_signal_total "account.updated").2 (by decide)⟩⟩

/-- C5: processing a transfer-created event whose payload object has
amount 455 in minor units of usd stores a `Transfer` row with decimal
amount 4.55 and with the payload's status field ("pending" or
"paid"). -/
theorem c5_transfer_created_amount (vendor : Envelope) (ev : Event)
    (db : DB)
    (hk : ev.kind = "transfer.created")
    (hp : ev.processed = false)
    (hm : ev.webhook_message.obj = vendor.obj)
    (hfresh : ∀ t ∈ db.transfers, t.stripe_id ≠ vendor.obj.id)
    (ha : vendor.obj.amount = 455)
    (hc : vendor.obj.currency = "usd")
    (_hs : vendor.obj.status = "pending" ∨ vendor.obj.status = "paid") :
    (process vendor ev db).1.transfers =
      db.transfers ++ [⟨vendor.obj.id, 4.55, "usd", vendor.obj.status⟩] := by
  obtain ⟨ht, -⟩ := process_transfer_sync vendor ev db (Or.inl hk) hp hm
  rw [ht, syncTransferList_insert _ _ hfresh]
  congr 1
  simp only [transferRowOf, convert_amount_for_db, ha, hc,
    List.cons.injEq, Transfer.mk.injEq, and_true, true_and]
  norm_num

theorem c5_witness :
    transferCreatedEvent.kind = "transfer.created" ∧
    (∀ t ∈ DB.empty.transfers,
      t.stripe_id ≠ transferCreatedEnv.obj.id) ∧
    (transferCreatedEnv.obj.status = "pending" ∨
      transferCreatedEnv.obj.status = "paid") ∧
    (process transferCreatedEnv transferCreatedEvent DB.empty).1.transfers =
      DB.empty.transfers ++
        [⟨transferCreatedEnv.obj.id, 4.55, "usd",
          transferCreatedEnv.obj.status⟩] :=
  ⟨rfl, by decide, Or.inl rfl,
    c5_transfer_created_amount transferCreatedEnv transferCreatedEvent
      DB.empty rfl rfl rfl (by decide) rfl rfl (Or.inl rfl)⟩

/-- C6: after a transfer-created event is processed for a vendor
transfer id, processing a later transfer-paid event with the same
transfer id updates the existing `Transfer` row's status to "paid" and
inserts no second row for that id. -/
theorem c6_transfer_paid_update (vendorC vendorP : Envelope)
    (evC evP : Event) (db : DB)
    (hkC : evC.kind = "transfer.created") (hpC : evC.processed = false)
    (hmC : evC.webhook_message.obj = vendorC.obj)
    (hfresh : ∀ t ∈ db.transfers, t.stripe_id ≠ vendorC.obj.id)
    (hkP : evP.kind = "transfer.paid") (hpP : evP.processed = false)
    (hmP : evP.webhook_message.obj = vendorP.obj)
    (hid : vendorP.obj.id = vendorC.obj.id)
    (hsP : vendorP.obj.status = "paid") :
    (process vendorP evP (process vendorC evC db).1).1.transfers =
      db.transfers ++ [{ transferRowOf vendorC.obj with status := "paid" }] ∧
    (process vendorP evP (process vendorC evC db).1).1.transfers.length =
      db.transfers.length + 1 := by
  obtain ⟨htC, -⟩ := process_transfer_sync vendorC evC db (Or.inl hkC) hpC hmC
  obtain ⟨htP, -⟩ := process_transfer_sync vendorP evP
    (process vendorC evC db).1 (Or.inr hkP) hpP hmP
  rw [htC, syncTransferList_insert _ _ hfresh] at htP
  have hfreshP : ∀ t ∈ db.transfers, t.stripe_id ≠ vendorP.obj.id := by
    intro t ht; rw [hid]; exact hfresh t ht
  rw [htP, syncTransferList_update _ _ _ hfreshP
    (by simp [transferRowOf, hid])]
  constructor
  · rw [hsP]
  · simp

theorem c6_witness :
    (∀ t ∈ DB.empty.transfers,
      t.stripe_id ≠ transferCreatedEnv.obj.id) ∧
    transferPaidEnv.obj.status = "paid" ∧
    (process transferPaidEnv transferPaidEvent
        (process transferCreatedEnv transferCreatedEvent DB.empty).1).1.transfers =
      DB.empty.transfers ++
        [{ transferRowOf transferCreatedEnv.obj with status := "paid" }] ∧
    (process transferPaidEnv transferPaidEvent
        (process transferCreatedEnv transferCreatedEvent DB.empty).1).1.transfers.length =
      DB.empty.transfers.length + 1 :=
  ⟨by decide, rfl,
    (c6_transfer_paid_update transferCreatedEnv transferPaidEnv
      transferCreatedEvent transferPaidEvent DB.empty
      rfl rfl rfl (by decide) rfl rfl rfl rfl rfl).1,
    (c6_transfer_paid_update transferCreatedEnv transferPaidEnv
      transferCreatedEvent transferPaidEvent DB.empty
      rfl rfl rfl (by decide) rfl rfl rfl rfl rfl).2⟩

/-- C7: `process()` on an event already marked processed is a no-op:
the database (all domain rows included) is returned unchanged and no
exception is raised. -/
theorem c7_process_idempotent (vendor : Envelope) (ev : Event) (db : DB)
    (h : ev.processed = true) :
    process vendor ev db = (db, none) := by
  simp [process, processWith, h]

theorem c7_witness :
    processedEvent.processed = true ∧
    process deauthEnv processedEvent dupDB = (dupDB, none) :=
  ⟨rfl, c7_process_idempotent deauthEnv processedEvent dupDB rfl⟩

/-- C8: constructing a handler with an event whose kind differs from
the handler's declared name raises the validation-mismatch error. -/
theorem c8_mkWebhook_mismatch (name : String) (ev : Event)
    (h : ev.kind ≠ name) :
    mkWebhook name ev = .error (.validationMismatch name ev.kind) := by
  simp [mkWebhook, h]

theorem c8_witness :
    accountUpdatedEvent.kind ≠ "account.application.deauthorized" ∧
    mkWebhook "account.application.deauthorized" accountUpdatedEvent =
      .error (.validationMismatch "account.application.deauthorized"
        accountUpdatedEvent.kind) :=
  ⟨by decide,
    c8_mkWebhook_mismatch "account.application.deauthorized"
      accountUpdatedEvent (by decide)⟩

/-- C9: when no `Event` row with the posted vendor id exists, the
receiver creates exactly one `Event` row, whose `stripe_account` field
equals the envelope's `user_id` (the connected account when present,
none otherwise), and responds 200. -/
theorem c9_connected_account (vendor data : Envelope) (db : DB)
    (h : ∀ e ∈ db.events, e.stripe_id ≠ data.id) :
    ∃ ev, (webhook_view vendor data db).1.events = db.events ++ [ev] ∧
      ev.stripe_id = data.id ∧ ev.stripe_account = data.user_id ∧
      (webhook_view vendor data db).2.2 = 200 := by
  have hany : db.events.any (fun e => e.stripe_id = data.id) = false := by
    simp only [List.any_eq_false, decide_eq_true_eq]; exact h
  unfold webhook_view
  rw [hany]
  simp only [Bool.false_eq_true, if_false]
  cases hreg : registry_get (mkEventRow data).kind with
  | none =>
      simp only [hreg]
      exact ⟨mkEventRow data, rfl, rfl, rfl, trivial⟩
  | some s =>
      simp only [hreg]
      obtain ⟨ev2, he, hid2, hacc⟩ :=
        process_events_fresh vendor (mkEventRow data) db rfl h
      exact ⟨ev2, he, hid2, hacc, trivial⟩

theorem c9_witness :
    (∀ e ∈ DB.empty.events, e.stripe_id ≠ connectEnv.id) ∧
    ∃ ev, (webhook_view connectEnv connectEnv DB.empty).1.events =
        DB.empty.events ++ [ev] ∧
      ev.stripe_id = connectEnv.id ∧
      ev.stripe_account = connectEnv.user_id ∧
      (webhook_view connectEnv connectEnv DB.empty).2.2 = 200 :=
  ⟨by decide,
    c9_connected_account connectEnv connectEnv DB.empty (by decide)⟩

/-- C10: for a customer.subscription.created event without a linked
local customer, `process_webhook()` invokes no customer sync and
completes without raising; with a linked customer the sync function is
invoked. -/
theorem c10_subscription_customer_guard (ev : Event) (db : DB)
    (hk : ev.kind = "customer.subscription.created") :
    (ev.customer = none → process_webhook ev db = db) ∧
    (∀ c, ev.customer = some c →
      process_webhook ev db = sync_customer c db ∧
      (process_webhook ev db).synced_customers =
        db.synced_customers ++ [c]) := by
  have hne : ¬(ev.kind = "transfer.created" ∨ ev.kind = "transfer.paid") := by
    rw [hk]; decide
  constructor
  · intro hc
    unfold process_webhook
    rw [if_neg hne, if_pos hk, hc]
  · intro c hc
    unfold process_webhook
    rw [if_neg hne, if_pos hk, hc]
    exact ⟨rfl, by simp [sync_customer]⟩

theorem c10_witness :
    subEventNoCustomer.kind = "customer.subscription.created" ∧
    subEventNoCustomer.customer = none ∧
    process_webhook subEventNoCustomer DB.empty = DB.empty ∧
    subEventWithCustomer.customer = some "cus_1" ∧
    (process_webhook subEventWithCustomer DB.empty).synced_customers =
      DB.empty.synced_customers ++ ["cus_1"] :=
  ⟨rfl, rfl,
    (c10_subscription_customer_guard subEventNoCustomer DB.empty rfl).1 rfl,
    rfl,
    ((c10_subscription_customer_guard subEventWithCustomer DB.empty
      rfl).2 "cus_1" rfl).2⟩

end PinaxStripe
